import Mathlib

/-!
Verification development for an embedded motor-controller driver simulation.
The C sources (device_registers.c, motor_controller.c, sensor_array.c,
interrupt_handler.c) are shallowly embedded: machine 32-bit words are
natural numbers reduced modulo 2 ^ 32 exactly where the C unsigned
arithmetic can wrap, pointers to the shared register file become a function
field carried inside each component state, and the C null-pointer guard
branches (which cannot arise in the embedding) are dropped. Interrupt
handler callbacks are opaque external code: an invocation is recorded as a
trace event (source index, recorded context word) instead of running the
callee, which matches the driver contract that handlers do not call back
into the controller drain.
-/

/-! Register file (device_registers.c / device_registers.h). -/

def REGISTER_FILE_SIZE : Nat := 0x24

def REG_MOTOR_CTRL : Nat := 0x00
def REG_MOTOR_STATUS : Nat := 0x04
def REG_MOTOR_SPEED : Nat := 0x08
def REG_MOTOR_POSITION : Nat := 0x0C
def REG_SENSOR_CTRL : Nat := 0x10
def REG_SENSOR_DATA : Nat := 0x14
def REG_SENSOR_STATUS : Nat := 0x18
def REG_IRQ_STATUS : Nat := 0x1C
def REG_IRQ_ENABLE : Nat := 0x20

def MOTOR_CTRL_ENABLE : Nat := 1
def MOTOR_CTRL_DIR_CW : Nat := 2
def MOTOR_CTRL_BRAKE : Nat := 4
def MOTOR_CTRL_RESET : Nat := 128

def MOTOR_STATUS_RUNNING : Nat := 1
def MOTOR_STATUS_FAULT : Nat := 2
def MOTOR_STATUS_STALL : Nat := 4
def MOTOR_STATUS_OVERHEAT : Nat := 8

def SENSOR_CTRL_ENABLE : Nat := 1
def SENSOR_CTRL_CONTINUOUS : Nat := 2
def SENSOR_CTRL_TRIGGER : Nat := 4

def SENSOR_STATUS_READY : Nat := 1
def SENSOR_STATUS_OVERFLOW : Nat := 2
def SENSOR_STATUS_ERROR : Nat := 4

/-- Word-indexed backing store of the simulated register file; the C
struct holds `uint32_t regs[9]` and all access goes through the word
index `offset / 4`, so the store is modelled as the word-index map. -/
def register_file_t : Type := Nat → Nat

/-- All-ones 32-bit word; `~bits` on a `uint32_t` is `mask32 ^^^ bits`. -/
def mask32 : Nat := 0xFFFFFFFF

/-- Modulus of 32-bit unsigned arithmetic. -/
def U32_MOD : Nat := 4294967296

/-- Addition of two `uint32_t` values (wraps modulo 2 ^ 32). -/
def u32_add (a b : Nat) : Nat := (a + b) % U32_MOD

/-- Subtraction of two `uint32_t` values (wraps modulo 2 ^ 32). -/
def u32_sub (a b : Nat) : Nat := (a + U32_MOD - b % U32_MOD) % U32_MOD

/-- Cast of a signed 32-bit value to `uint32_t`, as in
`(uint32_t)mc->position`. -/
def u32_of_int (x : Int) : Nat := (x % (U32_MOD : Int)).toNat

def reg_init : register_file_t := fun _ => 0

def reg_read (rf : register_file_t) (offset : Nat) : Nat :=
  if offset ≥ REGISTER_FILE_SIZE then 0xFFFFFFFF else rf (offset / 4)

def reg_write (rf : register_file_t) (offset value : Nat) : register_file_t :=
  if offset ≥ REGISTER_FILE_SIZE then rf
  else fun i => if i = offset / 4 then value else rf i

def reg_set_bits (rf : register_file_t) (offset bits : Nat) : register_file_t :=
  if offset ≥ REGISTER_FILE_SIZE then rf
  else fun i => if i = offset / 4 then rf i ||| bits else rf i

def reg_clear_bits (rf : register_file_t) (offset bits : Nat) : register_file_t :=
  if offset ≥ REGISTER_FILE_SIZE then rf
  else fun i => if i = offset / 4 then rf i &&& (mask32 ^^^ bits) else rf i

/-! Motor controller (motor_controller.c / motor_controller.h). -/

def MAX_SPEED : Nat := 10000
def SPEED_RAMP_RATE : Nat := 500

inductive motor_state_t where
  | idle
  | starting
  | running
  | stopping
  | fault
  | recovery
deriving DecidableEq, Repr

inductive motor_direction_t where
  | ccw
  | cw
deriving DecidableEq, Repr

inductive motor_fault_t where
  | none
  | stall
  | overheat
  | overcurrent
deriving DecidableEq, Repr

structure motor_controller_t where
  regs : register_file_t
  state : motor_state_t
  fault_code : motor_fault_t
  target_speed : Nat
  current_speed : Nat
  position : Int
  direction : motor_direction_t

def motor_init (regs : register_file_t) : motor_controller_t :=
  let r1 := reg_write regs REG_MOTOR_CTRL 0
  let r2 := reg_write r1 REG_MOTOR_STATUS 0
  let r3 := reg_write r2 REG_MOTOR_SPEED 0
  let r4 := reg_write r3 REG_MOTOR_POSITION 0
  { regs := r4, state := motor_state_t.idle, fault_code := motor_fault_t.none,
    target_speed := 0, current_speed := 0, position := 0,
    direction := motor_direction_t.ccw }

def motor_start (mc : motor_controller_t) (speed : Nat) (dir : motor_direction_t) :
    motor_controller_t × Int :=
  if mc.state = motor_state_t.fault then (mc, -2)
  else
    let speed := if speed > MAX_SPEED then MAX_SPEED else speed
    let ctrl := if dir = motor_direction_t.cw then
        MOTOR_CTRL_ENABLE ||| MOTOR_CTRL_DIR_CW
      else MOTOR_CTRL_ENABLE
    ({ mc with target_speed := speed, direction := dir,
               state := motor_state_t.starting,
               regs := reg_write mc.regs REG_MOTOR_CTRL ctrl }, 0)

def motor_stop (mc : motor_controller_t) : motor_controller_t × Int :=
  if mc.state = motor_state_t.idle then (mc, 0)
  else
    ({ mc with target_speed := 0, state := motor_state_t.stopping,
               regs := reg_clear_bits mc.regs REG_MOTOR_CTRL MOTOR_CTRL_ENABLE }, 0)

def motor_brake (mc : motor_controller_t) : motor_controller_t × Int :=
  let r1 := reg_set_bits mc.regs REG_MOTOR_CTRL MOTOR_CTRL_BRAKE
  let r2 := reg_clear_bits r1 REG_MOTOR_CTRL MOTOR_CTRL_ENABLE
  let r3 := reg_write r2 REG_MOTOR_SPEED 0
  let r4 := reg_clear_bits r3 REG_MOTOR_STATUS MOTOR_STATUS_RUNNING
  ({ mc with target_speed := 0, current_speed := 0, state := motor_state_t.idle,
             regs := r4 }, 0)

def motor_set_speed (mc : motor_controller_t) (speed : Nat) : motor_controller_t × Int :=
  if mc.state = motor_state_t.fault then (mc, -2)
  else
    let speed := if speed > MAX_SPEED then MAX_SPEED else speed
    ({ mc with target_speed := speed }, 0)

def motor_reset (mc : motor_controller_t) : motor_controller_t × Int :=
  let r1 := reg_write mc.regs REG_MOTOR_CTRL MOTOR_CTRL_RESET
  let r2 := reg_write r1 REG_MOTOR_STATUS 0
  let r3 := reg_write r2 REG_MOTOR_SPEED 0
  let r4 := reg_clear_bits r3 REG_MOTOR_CTRL MOTOR_CTRL_RESET
  ({ mc with state := motor_state_t.idle, fault_code := motor_fault_t.none,
             current_speed := 0, target_speed := 0, regs := r4 }, 0)

def motor_update (mc : motor_controller_t) : motor_controller_t × Int :=
  let status := reg_read mc.regs REG_MOTOR_STATUS
  if status &&& (MOTOR_STATUS_FAULT ||| MOTOR_STATUS_STALL ||| MOTOR_STATUS_OVERHEAT) ≠ 0 then
    if mc.state ≠ motor_state_t.fault then
      ({ mc with state := motor_state_t.fault,
                 fault_code :=
                   if status &&& MOTOR_STATUS_STALL ≠ 0 then motor_fault_t.stall
                   else if status &&& MOTOR_STATUS_OVERHEAT ≠ 0 then motor_fault_t.overheat
                   else motor_fault_t.overcurrent }, 0)
    else (mc, 0)
  else
    match mc.state with
    | motor_state_t.idle => (mc, 0)
    | motor_state_t.starting =>
        let mc1 :=
          if mc.current_speed < mc.target_speed then
            let cs := u32_add mc.current_speed SPEED_RAMP_RATE
            if cs ≥ mc.target_speed then
              { mc with current_speed := mc.target_speed, state := motor_state_t.running }
            else
              { mc with current_speed := cs }
          else
            { mc with state := motor_state_t.running }
        let r1 := reg_write mc1.regs REG_MOTOR_SPEED mc1.current_speed
        let r2 := reg_set_bits r1 REG_MOTOR_STATUS MOTOR_STATUS_RUNNING
        ({ mc1 with regs := r2 }, 0)
    | motor_state_t.running =>
        let mc1 :=
          if mc.current_speed < mc.target_speed then
            let cs := u32_add mc.current_speed SPEED_RAMP_RATE
            if cs > mc.target_speed then { mc with current_speed := mc.target_speed }
            else { mc with current_speed := cs }
          else if mc.current_speed > mc.target_speed then
            let cs := u32_sub mc.current_speed SPEED_RAMP_RATE
            if cs < mc.target_speed then { mc with current_speed := mc.target_speed }
            else { mc with current_speed := cs }
          else mc
        let r1 := reg_write mc1.regs REG_MOTOR_SPEED mc1.current_speed
        let pos :=
          if mc1.direction = motor_direction_t.cw then
            mc1.position + Int.ofNat (mc1.current_speed / 100)
          else
            mc1.position - Int.ofNat (mc1.current_speed / 100)
        let r2 := reg_write r1 REG_MOTOR_POSITION (u32_of_int pos)
        ({ mc1 with regs := r2, position := pos }, 0)
    | motor_state_t.stopping =>
        if mc.current_speed > SPEED_RAMP_RATE then
          let cs := u32_sub mc.current_speed SPEED_RAMP_RATE
          ({ mc with current_speed := cs,
                     regs := reg_write mc.regs REG_MOTOR_SPEED cs }, 0)
        else
          let r1 := reg_clear_bits mc.regs REG_MOTOR_STATUS MOTOR_STATUS_RUNNING
          ({ mc with current_speed := 0, state := motor_state_t.idle,
                     regs := reg_write r1 REG_MOTOR_SPEED 0 }, 0)
    | motor_state_t.fault => (mc, 0)
    | motor_state_t.recovery => ({ mc with state := motor_state_t.idle }, 0)

def motor_inject_fault (mc : motor_controller_t) (f : motor_fault_t) : motor_controller_t :=
  let mc1 := { mc with fault_code := f, state := motor_state_t.fault }
  match f with
  | motor_fault_t.stall =>
      { mc1 with regs := reg_set_bits mc1.regs REG_MOTOR_STATUS MOTOR_STATUS_STALL }
  | motor_fault_t.overheat =>
      { mc1 with regs := reg_set_bits mc1.regs REG_MOTOR_STATUS MOTOR_STATUS_OVERHEAT }
  | motor_fault_t.overcurrent =>
      { mc1 with regs := reg_set_bits mc1.regs REG_MOTOR_STATUS MOTOR_STATUS_FAULT }
  | motor_fault_t.none => mc1

def motor_clear_fault (mc : motor_controller_t) : motor_controller_t × Int :=
  if mc.state ≠ motor_state_t.fault then (mc, 0)
  else
    ({ mc with fault_code := motor_fault_t.none, state := motor_state_t.recovery,
               regs := reg_write mc.regs REG_MOTOR_STATUS 0 }, 0)

/-- Iterated motor state-machine ticks: `motor_updates n mc` is the state
after calling `motor_update` n times. -/
def motor_updates : Nat → motor_controller_t → motor_controller_t
  | 0, mc => mc
  | n + 1, mc => (motor_update (motor_updates n mc)).1

/-- One entry-point call on the motor controller, for quantifying over
arbitrary operation sequences. -/
inductive motor_op where
  | start (speed : Nat) (dir : motor_direction_t)
  | stop
  | brake
  | set_speed (speed : Nat)
  | reset
  | update
  | inject_fault (f : motor_fault_t)
  | clear_fault

def motor_step (mc : motor_controller_t) : motor_op → motor_controller_t
  | motor_op.start s d => (motor_start mc s d).1
  | motor_op.stop => (motor_stop mc).1
  | motor_op.brake => (motor_brake mc).1
  | motor_op.set_speed s => (motor_set_speed mc s).1
  | motor_op.reset => (motor_reset mc).1
  | motor_op.update => (motor_update mc).1
  | motor_op.inject_fault f => motor_inject_fault mc f
  | motor_op.clear_fault => (motor_clear_fault mc).1

def motor_run (mc : motor_controller_t) (ops : List motor_op) : motor_controller_t :=
  ops.foldl motor_step mc

/-- Invariant of the start-up ramp after k update ticks from
motor_start: the target is unchanged, the current speed follows
min (500 k) t, the state is starting until the ramp first reaches the
target and running from then on, and no fault bit is set in the
MOTOR_STATUS register. -/
def ramp_inv (t k : Nat) (m : motor_controller_t) : Prop :=
  m.target_speed = t ∧
  m.current_speed = min (500 * k) t ∧
  (m.state = motor_state_t.starting ∨ m.state = motor_state_t.running) ∧
  (m.state = motor_state_t.running ↔ 1 ≤ k ∧ t ≤ 500 * k) ∧
  reg_read m.regs REG_MOTOR_STATUS &&&
    (MOTOR_STATUS_FAULT ||| MOTOR_STATUS_STALL ||| MOTOR_STATUS_OVERHEAT) = 0

/-! Interrupt controller (interrupt_handler.c / interrupt_handler.h). -/

def INT_MOTOR_FAULT : Nat := 0
def INT_MOTOR_STALL : Nat := 1
def INT_SENSOR_READY : Nat := 2
def INT_SENSOR_ERROR : Nat := 3
def INT_TIMER : Nat := 4
def INT_COUNT : Nat := 5

def SIGUSR1 : Nat := 10
def SIGUSR2 : Nat := 12

/-- Interrupt controller context. A registered handler is recorded as
`Option.some fn` where `fn` stands for the function pointer word; the
callback body is external code and is not part of the model. -/
structure interrupt_controller_t where
  regs : register_file_t
  handlers : Nat → Option Nat
  handler_contexts : Nat → Nat
  pending_irqs : Nat
  enabled_irqs : Nat
  signal_received : Bool

def irq_init (regs : register_file_t) : interrupt_controller_t :=
  { regs := reg_write (reg_write regs REG_IRQ_STATUS 0) REG_IRQ_ENABLE 0,
    handlers := fun _ => Option.none, handler_contexts := fun _ => 0,
    pending_irqs := 0, enabled_irqs := 0, signal_received := false }

def irq_register_handler (ic : interrupt_controller_t) (source fn ctx : Nat) :
    interrupt_controller_t × Int :=
  if source ≥ INT_COUNT then (ic, -1)
  else
    ({ ic with
        handlers := fun i => if i = source then Option.some fn else ic.handlers i,
        handler_contexts := fun i => if i = source then ctx else ic.handler_contexts i }, 0)

def irq_unregister_handler (ic : interrupt_controller_t) (source : Nat) :
    interrupt_controller_t × Int :=
  if source ≥ INT_COUNT then (ic, -1)
  else
    ({ ic with
        handlers := fun i => if i = source then Option.none else ic.handlers i,
        handler_contexts := fun i => if i = source then 0 else ic.handler_contexts i }, 0)

def irq_enable (ic : interrupt_controller_t) (source : Nat) :
    interrupt_controller_t × Int :=
  if source ≥ INT_COUNT then (ic, -1)
  else
    ({ ic with enabled_irqs := ic.enabled_irqs ||| (1 <<< source),
               regs := reg_set_bits ic.regs REG_IRQ_ENABLE (1 <<< source) }, 0)

def irq_disable (ic : interrupt_controller_t) (source : Nat) :
    interrupt_controller_t × Int :=
  if source ≥ INT_COUNT then (ic, -1)
  else
    ({ ic with enabled_irqs := ic.enabled_irqs &&& (mask32 ^^^ (1 <<< source)),
               regs := reg_clear_bits ic.regs REG_IRQ_ENABLE (1 <<< source) }, 0)

def irq_enable_all (ic : interrupt_controller_t) : interrupt_controller_t :=
  { ic with enabled_irqs := (1 <<< INT_COUNT) - 1,
            regs := reg_write ic.regs REG_IRQ_ENABLE ((1 <<< INT_COUNT) - 1) }

def irq_disable_all (ic : interrupt_controller_t) : interrupt_controller_t :=
  { ic with enabled_irqs := 0, regs := reg_write ic.regs REG_IRQ_ENABLE 0 }

def irq_trigger (ic : interrupt_controller_t) (source : Nat) : interrupt_controller_t :=
  if source ≥ INT_COUNT then ic
  else if ic.enabled_irqs &&& (1 <<< source) ≠ 0 then
    { ic with pending_irqs := ic.pending_irqs ||| (1 <<< source),
              regs := reg_set_bits ic.regs REG_IRQ_STATUS (1 <<< source) }
  else ic

/-- State of the controller after `irq_process_pending` has consumed the
signal latch: the latch is cleared and, when it was set, the timer source
is triggered (subject to the usual enable gating in `irq_trigger`). -/
def irq_latch_state (ic : interrupt_controller_t) : interrupt_controller_t :=
  if ic.signal_received then
    irq_trigger { ic with signal_received := false } INT_TIMER
  else ic

/-- One iteration of the dispatch loop of `irq_process_pending`: on a
pending source with a registered handler, record the invocation
(source, recorded context) and bump the processed counter. -/
def irq_dispatch_step (ic : interrupt_controller_t)
    (acc : List (Nat × Nat) × Nat) (i : Nat) : List (Nat × Nat) × Nat :=
  if ic.pending_irqs &&& (1 <<< i) ≠ 0 ∧ (ic.handlers i).isSome then
    (acc.1 ++ [(i, ic.handler_contexts i)], acc.2 + 1)
  else acc

/-- Drain entry point; returns the new controller state, the handler
invocation trace in loop order, and the processed count returned by the C
function. -/
def irq_process_pending (ic : interrupt_controller_t) :
    interrupt_controller_t × List (Nat × Nat) × Nat :=
  let ic1 := irq_latch_state ic
  let r := (List.range INT_COUNT).foldl (irq_dispatch_step ic1) ([], 0)
  ({ ic1 with pending_irqs := 0, regs := reg_write ic1.regs REG_IRQ_STATUS 0 },
   r.1, r.2)

def irq_is_pending (ic : interrupt_controller_t) (source : Nat) : Bool :=
  if source ≥ INT_COUNT then false
  else ic.pending_irqs &&& (1 <<< source) != 0

def irq_clear (ic : interrupt_controller_t) (source : Nat) : interrupt_controller_t :=
  if source ≥ INT_COUNT then ic
  else
    { ic with pending_irqs := ic.pending_irqs &&& (mask32 ^^^ (1 <<< source)),
              regs := reg_clear_bits ic.regs REG_IRQ_STATUS (1 <<< source) }

/-- Asynchronous signal bridge `irq_signal_handler`, acting on the active
controller instance: latches the received flag and ORs the pending bit of
the mapped interrupt source. -/
def irq_signal_handler (ic : interrupt_controller_t) (signum : Nat) :
    interrupt_controller_t :=
  let ic1 := { ic with signal_received := true }
  if signum = SIGUSR1 then
    { ic1 with pending_irqs := ic1.pending_irqs ||| (1 <<< INT_MOTOR_FAULT) }
  else if signum = SIGUSR2 then
    { ic1 with pending_irqs := ic1.pending_irqs ||| (1 <<< INT_SENSOR_READY) }
  else ic1

/-- One synchronous interrupt-controller operation (the signal bridge is
kept separate, as in the source it runs from a host signal context). -/
inductive irq_op where
  | register_handler (source fn ctx : Nat)
  | unregister_handler (source : Nat)
  | enable (source : Nat)
  | disable (source : Nat)
  | enable_all
  | disable_all
  | trigger (source : Nat)
  | clear (source : Nat)
  | process_pending

def irq_step (ic : interrupt_controller_t) : irq_op → interrupt_controller_t
  | irq_op.register_handler s fn ctx => (irq_register_handler ic s fn ctx).1
  | irq_op.unregister_handler s => (irq_unregister_handler ic s).1
  | irq_op.enable s => (irq_enable ic s).1
  | irq_op.disable s => (irq_disable ic s).1
  | irq_op.enable_all => irq_enable_all ic
  | irq_op.disable_all => irq_disable_all ic
  | irq_op.trigger s => irq_trigger ic s
  | irq_op.clear s => irq_clear ic s
  | irq_op.process_pending => (irq_process_pending ic).1

/-! Sensor array (sensor_array.c / sensor_array.h). -/

def SENSOR_COUNT : Nat := 4
def SENSOR_BUFFER_SIZE : Nat := 16

inductive sensor_type_t where
  | position
  | velocity
  | temperature
  | current
deriving DecidableEq, Repr

inductive sensor_state_t where
  | disabled
  | idle
  | sampling
  | error
deriving DecidableEq, Repr

structure sensor_t where
  type : sensor_type_t
  state : sensor_state_t
  value : Int
  min_value : Int
  max_value : Int
  sample_count : Nat
deriving Repr

/-- A fully zeroed channel record, as left by `memset` before the
per-channel configuration of `sensor_array_init`. -/
def zero_sensor : sensor_t :=
  { type := sensor_type_t.position, state := sensor_state_t.disabled,
    value := 0, min_value := 0, max_value := 0, sample_count := 0 }

structure sensor_array_t where
  regs : register_file_t
  sensors : Nat → sensor_t
  buffer : List Int
  buffer_head : Nat
  buffer_tail : Nat
  continuous_mode : Bool

def sensor_array_init (regs : register_file_t) : sensor_array_t :=
  { regs := reg_write (reg_write (reg_write regs REG_SENSOR_CTRL 0)
              REG_SENSOR_DATA 0) REG_SENSOR_STATUS 0,
    sensors := fun i =>
      if i = 0 then
        { zero_sensor with type := sensor_type_t.position,
                           min_value := -10000, max_value := 10000 }
      else if i = 1 then
        { zero_sensor with type := sensor_type_t.velocity,
                           min_value := 0, max_value := 10000 }
      else if i = 2 then
        { zero_sensor with type := sensor_type_t.temperature,
                           min_value := -40, max_value := 125 }
      else if i = 3 then
        { zero_sensor with type := sensor_type_t.current,
                           min_value := 0, max_value := 5000 }
      else zero_sensor,
    buffer := List.replicate SENSOR_BUFFER_SIZE 0,
    buffer_head := 0, buffer_tail := 0, continuous_mode := false }

def sensor_array_enable (sa : sensor_array_t) : sensor_array_t × Int :=
  ({ sa with
      sensors := fun i =>
        if i < SENSOR_COUNT then { sa.sensors i with state := sensor_state_t.idle }
        else sa.sensors i,
      regs := reg_set_bits (reg_set_bits sa.regs REG_SENSOR_CTRL SENSOR_CTRL_ENABLE)
                REG_SENSOR_STATUS SENSOR_STATUS_READY }, 0)

def sensor_array_disable (sa : sensor_array_t) : sensor_array_t × Int :=
  ({ sa with
      sensors := fun i =>
        if i < SENSOR_COUNT then { sa.sensors i with state := sensor_state_t.disabled }
        else sa.sensors i,
      regs := reg_clear_bits (reg_clear_bits sa.regs REG_SENSOR_CTRL SENSOR_CTRL_ENABLE)
                REG_SENSOR_STATUS SENSOR_STATUS_READY }, 0)

def sensor_array_trigger (sa : sensor_array_t) : sensor_array_t × Int :=
  if reg_read sa.regs REG_SENSOR_CTRL &&& SENSOR_CTRL_ENABLE = 0 then (sa, -2)
  else
    ({ sa with
        regs := reg_set_bits sa.regs REG_SENSOR_CTRL SENSOR_CTRL_TRIGGER,
        sensors := fun i =>
          if i < SENSOR_COUNT ∧ (sa.sensors i).state = sensor_state_t.idle then
            { sa.sensors i with state := sensor_state_t.sampling,
                                sample_count := u32_add (sa.sensors i).sample_count 1 }
          else sa.sensors i }, 0)

def sensor_array_set_continuous (sa : sensor_array_t) (enable : Bool) :
    sensor_array_t × Int :=
  if enable then
    ({ sa with continuous_mode := true,
               regs := reg_set_bits sa.regs REG_SENSOR_CTRL SENSOR_CTRL_CONTINUOUS }, 0)
  else
    ({ sa with continuous_mode := false,
               regs := reg_clear_bits sa.regs REG_SENSOR_CTRL SENSOR_CTRL_CONTINUOUS }, 0)

def sensor_read (sa : sensor_array_t) (sensor_id : Nat) : Int :=
  if sensor_id ≥ SENSOR_COUNT then 0 else (sa.sensors sensor_id).value

def sensor_buffer_push (sa : sensor_array_t) (value : Int) : sensor_array_t × Int :=
  let next := (sa.buffer_head + 1) % SENSOR_BUFFER_SIZE
  if next = sa.buffer_tail then
    ({ sa with regs := reg_set_bits sa.regs REG_SENSOR_STATUS SENSOR_STATUS_OVERFLOW }, -2)
  else
    ({ sa with buffer := sa.buffer.set sa.buffer_head value, buffer_head := next }, 0)

def sensor_is_ready (sa : sensor_array_t) : Bool :=
  reg_read sa.regs REG_SENSOR_STATUS &&& SENSOR_STATUS_READY != 0

/-- Body of the per-channel loop of `sensor_array_update`: a channel in
sampling state completes, its value is clamped to [min, max], and in
continuous mode the clamped value is pushed to the ring. -/
def sensor_sample_step (sa : sensor_array_t) (i : Nat) : sensor_array_t :=
  if (sa.sensors i).state = sensor_state_t.sampling then
    let s0 := sa.sensors i
    let v1 := if s0.value < s0.min_value then s0.min_value else s0.value
    let v2 := if v1 > s0.max_value then s0.max_value else v1
    let sa1 := { sa with
      sensors := fun j =>
        if j = i then { s0 with state := sensor_state_t.idle, value := v2 }
        else sa.sensors j }
    if sa1.continuous_mode then (sensor_buffer_push sa1 v2).1 else sa1
  else sa

def sensor_array_update (sa : sensor_array_t) : sensor_array_t × Int :=
  let sa1 := (List.range SENSOR_COUNT).foldl sensor_sample_step sa
  let sa2 := { sa1 with regs := reg_clear_bits sa1.regs REG_SENSOR_CTRL SENSOR_CTRL_TRIGGER }
  if sa2.continuous_mode ∧ sensor_is_ready sa2 then ((sensor_array_trigger sa2).1, 0)
  else (sa2, 0)

def sensor_set_simulated_value (sa : sensor_array_t) (sensor_id : Nat) (value : Int) :
    sensor_array_t :=
  if sensor_id ≥ SENSOR_COUNT then sa
  else
    { sa with sensors := fun i =>
        if i = sensor_id then { sa.sensors i with value := value } else sa.sensors i }

/-- Pushing a list of samples in order, collecting each return code. -/
def sensor_push_list (sa : sensor_array_t) : List Int → sensor_array_t × List Int
  | [] => (sa, [])
  | v :: vs =>
    let r := sensor_buffer_push sa v
    let rest := sensor_push_list r.1 vs
    (rest.1, r.2 :: rest.2)

/-! Concrete scenario states used by individual claims. -/

/-- Demo run for the reset claim: start at 1000 clockwise, tick the state
machine 20 times (mirrors test_motor_position_update), then reset. -/
def motor_reset_demo : motor_controller_t :=
  motor_run (motor_init reg_init)
    ([motor_op.start 1000 motor_direction_t.cw] ++
      List.replicate 20 motor_op.update ++ [motor_op.reset])

/-- Operation sequence: ramp to 1000, then stop (target drops to 0 while
current speed is still 1000). -/
def motor_stop_gap_seq : List motor_op :=
  [motor_op.start 1000 motor_direction_t.cw, motor_op.update, motor_op.update,
   motor_op.stop]

/-- Operation sequence: ramp to 300, retarget to 0; the running-state
ramp-down subtracts 500 from a `uint32_t` holding 300 and wraps. -/
def motor_wrap_seq : List motor_op :=
  [motor_op.start 300 motor_direction_t.cw, motor_op.update,
   motor_op.set_speed 0, motor_op.update]

/-- Sensor clamping scenario, after enable and set_simulated_value(2, 9999). -/
def sensor_clamp_demo_set : sensor_array_t :=
  sensor_set_simulated_value (sensor_array_enable (sensor_array_init reg_init)).1 2 9999

/-- Sensor clamping scenario, after the subsequent trigger and update. -/
def sensor_clamp_demo_updated : sensor_array_t :=
  (sensor_array_update (sensor_array_trigger sensor_clamp_demo_set).1).1

/-! Helper lemmas about the register file and bit operations. -/

theorem reg_read_reg_write (rf : register_file_t) (o1 v o2 : Nat)
    (h1 : o1 < 0x24) (h2 : o2 < 0x24) :
    reg_read (reg_write rf o1 v) o2 = if o2 / 4 = o1 / 4 then v else reg_read rf o2 := by
  simp [reg_read, reg_write, REGISTER_FILE_SIZE, Nat.not_le.mpr h1, Nat.not_le.mpr h2]

theorem reg_read_reg_set_bits (rf : register_file_t) (o1 b o2 : Nat)
    (h1 : o1 < 0x24) (h2 : o2 < 0x24) :
    reg_read (reg_set_bits rf o1 b) o2 =
      if o2 / 4 = o1 / 4 then reg_read rf o2 ||| b else reg_read rf o2 := by
  by_cases h : o2 / 4 = o1 / 4
  · simp [reg_read, reg_set_bits, REGISTER_FILE_SIZE, Nat.not_le.mpr h1,
      Nat.not_le.mpr h2, h]
  · simp [reg_read, reg_set_bits, REGISTER_FILE_SIZE, Nat.not_le.mpr h1,
      Nat.not_le.mpr h2, h]

theorem reg_read_reg_clear_bits (rf : register_file_t) (o1 b o2 : Nat)
    (h1 : o1 < 0x24) (h2 : o2 < 0x24) :
    reg_read (reg_clear_bits rf o1 b) o2 =
      if o2 / 4 = o1 / 4 then reg_read rf o2 &&& (mask32 ^^^ b) else reg_read rf o2 := by
  by_cases h : o2 / 4 = o1 / 4
  · simp [reg_read, reg_clear_bits, REGISTER_FILE_SIZE, Nat.not_le.mpr h1,
      Nat.not_le.mpr h2, h]
  · simp [reg_read, reg_clear_bits, REGISTER_FILE_SIZE, Nat.not_le.mpr h1,
      Nat.not_le.mpr h2, h]

theorem lor_land_eq_zero (a b c : Nat) (h1 : a &&& c = 0) (h2 : b &&& c = 0) :
    (a ||| b) &&& c = 0 := by
  apply Nat.eq_of_testBit_eq
  intro i
  have t1 : (a &&& c).testBit i = false := by simp [h1]
  have t2 : (b &&& c).testBit i = false := by simp [h2]
  rw [Nat.testBit_land] at t1 t2
  simp only [Nat.testBit_land, Nat.testBit_lor, Nat.zero_testBit]
  cases hc : c.testBit i
  · simp
  · rw [hc] at t1 t2
    simp only [Bool.and_true] at t1 t2
    simp [t1, t2]

theorem land_ne_zero_of_lor (a b c : Nat) (h : (a ||| b) &&& c ≠ 0) :
    a &&& c ≠ 0 ∨ b &&& c ≠ 0 := by
  by_contra hcon
  push_neg at hcon
  exact h (lor_land_eq_zero a b c hcon.1 hcon.2)

theorem shift_land_shift (s1 s2 : Nat) (h : (1 <<< s1) &&& (1 <<< s2) ≠ 0) : s1 = s2 := by
  by_contra hne
  apply h
  rw [Nat.one_shiftLeft, Nat.one_shiftLeft, Nat.and_two_pow, Nat.testBit_two_pow]
  simp [hne]

theorem land_land_zero (p x c : Nat) (h : p &&& c = 0) : (p &&& x) &&& c = 0 := by
  apply Nat.eq_of_testBit_eq
  intro i
  have t1 : (p &&& c).testBit i = false := by simp [h]
  rw [Nat.testBit_land] at t1
  simp only [Nat.testBit_land, Nat.zero_testBit]
  cases hp : p.testBit i
  · simp
  · rw [hp] at t1
    simp only [Bool.true_and] at t1
    simp [t1]

/-! Claim theorems: register file. -/

/-- C1: for every 4-aligned offset below 0x24 and every 32-bit value,
writing then reading the same offset returns the value; for every offset
at or above 0x24, reading returns the 0xFFFFFFFF sentinel and writing
leaves every in-range register unchanged. -/
theorem reg_write_read_roundtrip_and_oob (rf : register_file_t) :
    (∀ o v, o % 4 = 0 → o < 0x24 → v < 2 ^ 32 →
      reg_read (reg_write rf o v) o = v) ∧
    (∀ o v, 0x24 ≤ o →
      reg_read rf o = 0xFFFFFFFF ∧
      ∀ o2, o2 < 0x24 → reg_read (reg_write rf o v) o2 = reg_read rf o2) := by
  constructor
  · intro o v _ ho _
    rw [reg_read_reg_write rf o v o ho ho, if_pos rfl]
  · intro o v ho
    refine ⟨?_, ?_⟩
    · simp [reg_read, REGISTER_FILE_SIZE, ho]
    · intro o2 _
      have : reg_write rf o v = rf := by
        simp [reg_write, REGISTER_FILE_SIZE, ho]
      rw [this]

/-- C1 witness: concrete instances of both halves at offset 0x14 with
value 0x12345678 and at out-of-range offset 0x30. -/
theorem reg_write_read_roundtrip_and_oob_witness :
    reg_read (reg_write reg_init 0x14 0x12345678) 0x14 = 0x12345678 ∧
    reg_read reg_init 0x30 = 0xFFFFFFFF ∧
    reg_read (reg_write reg_init 0x30 5) 0x00 = reg_read reg_init 0x00 := by
  refine ⟨(reg_write_read_roundtrip_and_oob reg_init).1 0x14 0x12345678 (by decide)
      (by decide) (by decide),
    ((reg_write_read_roundtrip_and_oob reg_init).2 0x30 5 (by decide)).1,
    ((reg_write_read_roundtrip_and_oob reg_init).2 0x30 5 (by decide)).2 0 (by decide)⟩

/-- C9 counterexample: on the freshly initialised register file (word 0 at
offset 0), running clear_bits(0, 1) then set_bits(0, 1) yields bit 0 set,
whereas the original word had bit 0 clear — so the sequence does not
restore the original word bits within the mask. -/
theorem clear_then_set_bits_counterexample :
    Nat.testBit (reg_read (reg_set_bits (reg_clear_bits reg_init 0 1) 0 1) 0) 0 = true ∧
    Nat.testBit (reg_read reg_init 0) 0 = false := by decide

/-- C9 amended: for every in-range offset and every mask, the sequence
clear_bits(o, m); set_bits(o, m) leaves every bit outside m unchanged and
forces every bit inside m to 1 (so it restores the original bits within m
exactly when they were all set beforehand). Bit positions range over the
32 bits of the stored word. -/
theorem clear_then_set_bits_masked (rf : register_file_t) (o m i : Nat)
    (ho : o < 0x24) (hi : i < 32) :
    (Nat.testBit m i = false →
      Nat.testBit (reg_read (reg_set_bits (reg_clear_bits rf o m) o m) o) i
        = Nat.testBit (reg_read rf o) i) ∧
    (Nat.testBit m i = true →
      Nat.testBit (reg_read (reg_set_bits (reg_clear_bits rf o m) o m) o) i = true) := by
  have hread : reg_read (reg_set_bits (reg_clear_bits rf o m) o m) o
      = (reg_read rf o &&& (mask32 ^^^ m)) ||| m := by
    rw [reg_read_reg_set_bits _ o m o ho ho, if_pos rfl,
      reg_read_reg_clear_bits rf o m o ho ho, if_pos rfl]
  have hmask : Nat.testBit mask32 i = true := by
    have hm32 : mask32 = 2 ^ 32 - 1 := by norm_num [mask32]
    rw [hm32, Nat.testBit_two_pow_sub_one]
    simp [hi]
  constructor
  · intro hm
    rw [hread, Nat.testBit_lor, Nat.testBit_land, Nat.testBit_xor, hmask, hm]
    simp
  · intro hm
    rw [hread, Nat.testBit_lor, hm]
    simp

/-- C9 witness for the amended theorem: offset 8, mask 5, on a register
file holding 0xF0F at word 2; bit 1 (outside the mask) is preserved and
bit 2 (inside the mask) reads 1. -/
theorem clear_then_set_bits_masked_witness :
    (Nat.testBit 5 1 = false →
      Nat.testBit (reg_read (reg_set_bits (reg_clear_bits reg_init 8 5) 8 5) 8) 1
        = Nat.testBit (reg_read reg_init 8) 1) ∧
    (Nat.testBit 5 2 = true →
      Nat.testBit (reg_read (reg_set_bits (reg_clear_bits reg_init 8 5) 8 5) 8) 2 = true) :=
  ⟨(clear_then_set_bits_masked reg_init 8 5 1 (by decide) (by decide)).1,
   (clear_then_set_bits_masked reg_init 8 5 2 (by decide) (by decide)).2⟩

/-- C10: for every offset below 0x24 that is not 4-aligned, the bounds
check passes and the operation accesses the word containing the offset:
reading at o equals reading at the aligned offset o - o % 4, writing at o
equals writing at the aligned offset, and the unaligned offsets 0x21
through 0x23 access the last register word (index 8). -/
theorem reg_unaligned_offset_access (rf : register_file_t) (o v : Nat)
    (ho : o < 0x24) (ha : o % 4 ≠ 0) :
    reg_read rf o = reg_read rf (o - o % 4) ∧
    reg_write rf o v = reg_write rf (o - o % 4) v ∧
    (0x21 ≤ o → reg_read rf o = rf 8) := by
  have h1 : o - o % 4 < 0x24 := by omega
  have h2 : (o - o % 4) / 4 = o / 4 := by omega
  refine ⟨?_, ?_, ?_⟩
  · simp [reg_read, REGISTER_FILE_SIZE, Nat.not_le.mpr ho, Nat.not_le.mpr h1, h2]
  · simp [reg_write, REGISTER_FILE_SIZE, Nat.not_le.mpr ho, Nat.not_le.mpr h1, h2]
  · intro h3
    have h4 : o / 4 = 8 := by omega
    simp [reg_read, REGISTER_FILE_SIZE, Nat.not_le.mpr ho, h4]

/-- C10 witness: the unaligned offset 0x21 reads the same word as the
aligned offset 0x20, writes coincide, and it accesses word 8. -/
theorem reg_unaligned_offset_access_witness :
    reg_read reg_init 0x21 = reg_read reg_init (0x21 - 0x21 % 4) ∧
    reg_write reg_init 0x21 7 = reg_write reg_init (0x21 - 0x21 % 4) 7 ∧
    (0x21 ≤ 0x21 → reg_read reg_init 0x21 = reg_init 8) :=
  reg_unaligned_offset_access reg_init 0x21 7 (by decide) (by decide)

/-! Claim theorems: motor controller. -/

/-- C3: evaluation of motor_reset at the failing input. After ramping to
1000 clockwise and ticking 20 times, motor_reset returns the state to
idle with no fault and zero speeds, and MOTOR_CTRL, MOTOR_STATUS and
MOTOR_SPEED read back 0 — but the MOTOR_POSITION register (and the
in-memory position) still read 180, contradicting the claim that all four
motor registers read back as 0. -/
theorem motor_reset_keeps_position :
    motor_reset_demo.state = motor_state_t.idle ∧
    motor_reset_demo.fault_code = motor_fault_t.none ∧
    motor_reset_demo.current_speed = 0 ∧
    motor_reset_demo.target_speed = 0 ∧
    reg_read motor_reset_demo.regs REG_MOTOR_CTRL = 0 ∧
    reg_read motor_reset_demo.regs REG_MOTOR_STATUS = 0 ∧
    reg_read motor_reset_demo.regs REG_MOTOR_SPEED = 0 ∧
    reg_read motor_reset_demo.regs REG_MOTOR_POSITION = 180 ∧
    motor_reset_demo.position = 180 := by decide

/-- C4 counterexample: two concrete runs violating the claimed invariant.
After ramping to 1000 and calling motor_stop, current_speed (1000)
exceeds target_speed (0); and after ramping to 300 and retargeting to 0,
one update tick wraps the uint32 current_speed to 4294967096, exceeding
10000. -/
theorem motor_speed_invariant_counterexample :
    ((motor_run (motor_init reg_init) motor_stop_gap_seq).current_speed = 1000 ∧
     (motor_run (motor_init reg_init) motor_stop_gap_seq).target_speed = 0) ∧
    ((motor_run (motor_init reg_init) motor_wrap_seq).current_speed = 4294967096 ∧
     (motor_run (motor_init reg_init) motor_wrap_seq).target_speed = 0) := by decide

/-- Helper: the state-machine tick never modifies the target speed. -/
theorem motor_update_target_eq (mc : motor_controller_t) :
    (motor_update mc).1.target_speed = mc.target_speed := by
  unfold motor_update
  dsimp only
  split
  · split <;> rfl
  · split <;> ((try dsimp only); repeat' split) <;> rfl

/-- Helper: every motor entry point keeps the target speed at or below
MAX_SPEED. -/
theorem motor_step_target_le (mc : motor_controller_t) (op : motor_op)
    (h : mc.target_speed ≤ 10000) : (motor_step mc op).target_speed ≤ 10000 := by
  cases op with
  | start s d =>
      simp only [motor_step, motor_start, MAX_SPEED]
      split_ifs <;> simp_all
  | stop =>
      simp only [motor_step, motor_stop]
      split_ifs <;> simp_all
  | brake => simp [motor_step, motor_brake]
  | set_speed s =>
      simp only [motor_step, motor_set_speed, MAX_SPEED]
      split_ifs <;> simp_all
  | reset => simp [motor_step, motor_reset]
  | update =>
      show (motor_update mc).1.target_speed ≤ 10000
      rw [motor_update_target_eq]
      exact h
  | inject_fault f => cases f <;> simp [motor_step, motor_inject_fault, h]
  | clear_fault =>
      simp only [motor_step, motor_clear_fault]
      split_ifs <;> simp_all

/-- Helper: the target-speed bound is preserved along any operation
sequence. -/
theorem motor_run_target_le (mc : motor_controller_t) (ops : List motor_op)
    (h : mc.target_speed ≤ 10000) : (motor_run mc ops).target_speed ≤ 10000 := by
  induction ops generalizing mc with
  | nil => exact h
  | cons op ops ih => exact ih (motor_step mc op) (motor_step_target_le mc op h)

/-- C4 amended: in every motor state reachable from motor_init by any
sequence of motor operations, target_speed ≤ 10000. (The stronger claimed
invariant current_speed ≤ target_speed ≤ 10000 fails: see the
counterexample runs after motor_stop and after the uint32 ramp-down
wrap.) -/
theorem motor_target_speed_le_max (rf : register_file_t) (ops : List motor_op) :
    (motor_run (motor_init rf) ops).target_speed ≤ 10000 :=
  motor_run_target_le (motor_init rf) ops (Nat.zero_le 10000)

/-- Helper: the starting-state tick writes MOTOR_SPEED and then ORs the
running bit into MOTOR_STATUS; reading MOTOR_STATUS afterwards sees the
old status with the running bit set. -/
theorem motor_status_after_speed_running (rg : register_file_t) (cs : Nat) :
    reg_read (reg_set_bits (reg_write rg REG_MOTOR_SPEED cs)
        REG_MOTOR_STATUS MOTOR_STATUS_RUNNING) REG_MOTOR_STATUS
      = reg_read rg REG_MOTOR_STATUS ||| MOTOR_STATUS_RUNNING := by
  rw [reg_read_reg_set_bits _ _ _ _ (by decide) (by decide), if_pos rfl,
    reg_read_reg_write _ _ _ _ (by decide) (by decide), if_neg (by decide)]

/-- Helper: the running-state tick writes MOTOR_SPEED and MOTOR_POSITION;
MOTOR_STATUS is untouched. -/
theorem motor_status_after_speed_position (rg : register_file_t) (cs p : Nat) :
    reg_read (reg_write (reg_write rg REG_MOTOR_SPEED cs)
        REG_MOTOR_POSITION p) REG_MOTOR_STATUS
      = reg_read rg REG_MOTOR_STATUS := by
  rw [reg_read_reg_write _ _ _ _ (by decide) (by decide), if_neg (by decide),
    reg_read_reg_write _ _ _ _ (by decide) (by decide), if_neg (by decide)]

/-- Helper: one update tick preserves the ramp invariant, advancing the
tick count. -/
theorem ramp_inv_step (t k : Nat) (m : motor_controller_t) (ht : t ≤ 10000)
    (h : ramp_inv t k m) : ramp_inv t (k + 1) (motor_update m).1 := by
  obtain ⟨h1, h2, h3, h4, h5⟩ := h
  have hle : m.current_speed ≤ t := by
    rw [h2]; exact Nat.min_le_right _ _
  have hadd : u32_add m.current_speed SPEED_RAMP_RATE = m.current_speed + 500 := by
    show (m.current_speed + 500) % 4294967296 = m.current_speed + 500
    omega
  simp only [motor_update, ramp_inv]
  rw [if_neg (not_ne_iff.mpr h5)]
  rcases h3 with hst | hst
  · -- state is starting
    have hnr : ¬ (1 ≤ k ∧ t ≤ 500 * k) := fun hr => by
      rw [hst] at h4
      exact absurd (h4.mpr hr) (by decide)
    rw [hst]
    dsimp only
    by_cases hc : m.current_speed < m.target_speed
    · have h500k : 500 * k < t := by
        have hlt := hc
        rw [h2, h1] at hlt
        rcases min_lt_iff.mp hlt with hx | hx
        · exact hx
        · omega
      have hmin : min (500 * k) t = 500 * k := Nat.min_eq_left (by omega)
      rw [if_pos hc, hadd]
      by_cases hge : m.current_speed + 500 ≥ m.target_speed
      · rw [if_pos hge]
        dsimp only
        have hge2 : t ≤ 500 * (k + 1) := by
          rw [h2, h1, hmin] at hge
          omega
        refine ⟨h1, ?_, Or.inr rfl, ?_, ?_⟩
        · rw [h1, Nat.min_eq_right hge2]
        · exact iff_of_true rfl ⟨by omega, hge2⟩
        · rw [motor_status_after_speed_running]
          exact lor_land_eq_zero _ _ _ h5 (by decide)
      · rw [if_neg hge]
        dsimp only
        have hlt2 : 500 * (k + 1) < t := by
          rw [h2, h1, hmin] at hge
          omega
        refine ⟨h1, ?_, Or.inl rfl, ?_, ?_⟩
        · rw [h2, hmin, Nat.min_eq_left (by omega)]
          ring
        · exact iff_of_false (by decide) (by omega)
        · rw [motor_status_after_speed_running]
          exact lor_land_eq_zero _ _ _ h5 (by decide)
    · have hts : t ≤ 500 * k := by
        have hge3 : t ≤ m.current_speed := by
          rw [h1] at hc
          omega
        calc t ≤ m.current_speed := hge3
          _ = min (500 * k) t := h2
          _ ≤ 500 * k := Nat.min_le_left _ _
      have hk0 : k = 0 := by omega
      have ht0 : t = 0 := by omega
      rw [if_neg hc]
      dsimp only
      refine ⟨h1, ?_, Or.inr rfl, ?_, ?_⟩
      · rw [h2, ht0]
        simp
      · exact iff_of_true rfl ⟨by omega, by omega⟩
      · rw [motor_status_after_speed_running]
        exact lor_land_eq_zero _ _ _ h5 (by decide)
  · -- state is running
    have hkr : 1 ≤ k ∧ t ≤ 500 * k := by
      rw [hst] at h4
      exact h4.mp rfl
    have hcur : m.current_speed = t := by
      rw [h2, Nat.min_eq_right hkr.2]
    rw [hst]
    dsimp only
    rw [hcur, h1, if_neg (lt_irrefl t), if_neg (lt_irrefl t)]
    refine ⟨h1, ?_, Or.inr hst, ?_, ?_⟩
    · rw [hcur, Nat.min_eq_right (by omega)]
    · exact iff_of_true hst ⟨by omega, by omega⟩
    · rw [motor_status_after_speed_position]
      exact h5

/-- Helper: the ramp invariant holds right after motor_start from an idle
state with zero current speed and a fault-free MOTOR_STATUS register. -/
theorem ramp_inv_zero (mc0 : motor_controller_t) (t : Nat) (dir : motor_direction_t)
    (ht : t ≤ 10000) (hidle : mc0.state = motor_state_t.idle)
    (hcs : mc0.current_speed = 0)
    (hstatus : reg_read mc0.regs REG_MOTOR_STATUS &&&
      (MOTOR_STATUS_FAULT ||| MOTOR_STATUS_STALL ||| MOTOR_STATUS_OVERHEAT) = 0) :
    ramp_inv t 0 (motor_start mc0 t dir).1 := by
  have hnf : ¬ mc0.state = motor_state_t.fault := by
    rw [hidle]; decide
  have hcl : ¬ t > MAX_SPEED := by
    show ¬ t > 10000
    omega
  simp only [motor_start, ramp_inv]
  rw [if_neg hnf]
  dsimp only
  rw [if_neg hcl]
  refine ⟨rfl, ?_, Or.inl rfl, ?_, ?_⟩
  · rw [hcs]; simp
  · exact iff_of_false (by decide) (by omega)
  · rw [reg_read_reg_write _ _ _ _ (by decide) (by decide), if_neg (by decide)]
    exact hstatus

/-- Helper: the ramp invariant after k iterated ticks. -/
theorem ramp_inv_updates (t : Nat) (ht : t ≤ 10000) (m : motor_controller_t)
    (h : ramp_inv t 0 m) (k : Nat) : ramp_inv t k (motor_updates k m) := by
  induction k with
  | zero => exact h
  | succ n ih => exact ramp_inv_step t n (motor_updates n m) ht ih

/-- C2: from an idle motor with zero current speed and no fault bit set
in MOTOR_STATUS, motor_start(t, dir) with t ≤ 10000 leads, after some
number of update ticks, to current_speed = t in the running state, and at
every tick count k the current speed equals min (500 k) t — the ramp
rises by 500 per tick, clamped at the target. -/
theorem motor_start_ramp (mc0 : motor_controller_t) (t : Nat) (dir : motor_direction_t)
    (ht : t ≤ 10000) (hidle : mc0.state = motor_state_t.idle)
    (hcs : mc0.current_speed = 0)
    (hstatus : reg_read mc0.regs REG_MOTOR_STATUS &&&
      (MOTOR_STATUS_FAULT ||| MOTOR_STATUS_STALL ||| MOTOR_STATUS_OVERHEAT) = 0) :
    ∃ n, (motor_updates n (motor_start mc0 t dir).1).current_speed = t ∧
      (motor_updates n (motor_start mc0 t dir).1).state = motor_state_t.running ∧
      ∀ k, (motor_updates k (motor_start mc0 t dir).1).current_speed = min (500 * k) t := by
  have hinv := ramp_inv_updates t ht _ (ramp_inv_zero mc0 t dir ht hidle hcs hstatus)
  have hbig : t ≤ 500 * (t / 500 + 1) := by omega
  refine ⟨t / 500 + 1, ?_, ?_, ?_⟩
  · rw [(hinv (t / 500 + 1)).2.1, Nat.min_eq_right hbig]
  · exact ((hinv (t / 500 + 1)).2.2.2.1).mpr ⟨by omega, hbig⟩
  · intro k
    exact (hinv k).2.1

/-- C2 witness: the concrete ramp motor_start(5000, CW) from the freshly
initialised driver state. -/
theorem motor_start_ramp_witness :
    ∃ n, (motor_updates n
        (motor_start (motor_init reg_init) 5000 motor_direction_t.cw).1).current_speed = 5000 ∧
      (motor_updates n
        (motor_start (motor_init reg_init) 5000 motor_direction_t.cw).1).state
          = motor_state_t.running ∧
      ∀ k, (motor_updates k
        (motor_start (motor_init reg_init) 5000 motor_direction_t.cw).1).current_speed
          = min (500 * k) 5000 :=
  motor_start_ramp (motor_init reg_init) 5000 motor_direction_t.cw (by decide) (by decide)
    (by decide) (by decide)

/-! Claim theorems: interrupt controller. -/

/-- Helper: the dispatch loop of irq_process_pending accumulates, in
ascending order, one trace entry per pending source with a registered
handler, and counts them. -/
theorem irq_foldl_dispatch (ic1 : interrupt_controller_t) (l : List Nat)
    (acc : List (Nat × Nat)) (n : Nat) :
    l.foldl (irq_dispatch_step ic1) (acc, n) =
      (acc ++ (l.filter (fun i =>
          decide (ic1.pending_irqs &&& (1 <<< i) ≠ 0 ∧ (ic1.handlers i).isSome))).map
            (fun i => (i, ic1.handler_contexts i)),
       n + (l.filter (fun i =>
          decide (ic1.pending_irqs &&& (1 <<< i) ≠ 0 ∧ (ic1.handlers i).isSome))).length) := by
  induction l generalizing acc n with
  | nil => simp
  | cons a l ih =>
    rw [List.foldl_cons]
    by_cases h : ic1.pending_irqs &&& (1 <<< a) ≠ 0 ∧ (ic1.handlers a).isSome
    · have hstep : irq_dispatch_step ic1 (acc, n) a
          = (acc ++ [(a, ic1.handler_contexts a)], n + 1) := by
        rw [irq_dispatch_step, if_pos h]
      rw [hstep, ih]
      simp [List.filter_cons, h]
      omega
    · have hstep : irq_dispatch_step ic1 (acc, n) a = (acc, n) := by
        rw [irq_dispatch_step, if_neg h]
      rw [hstep, ih]
      simp [List.filter_cons, h]

/-- C6: irq_process_pending first folds the signal latch into a (gated)
trigger of the timer source, then invokes the registered handler of each
pending source in ascending order with its recorded context — the
invocation trace is exactly the ordered list of pending-and-registered
sources of the post-latch state — returns the number of handlers invoked,
and leaves the pending mask and the IRQ_STATUS register at zero. -/
theorem irq_process_pending_drains (ic : interrupt_controller_t) :
    (irq_process_pending ic).1.pending_irqs = 0 ∧
    reg_read (irq_process_pending ic).1.regs REG_IRQ_STATUS = 0 ∧
    (irq_process_pending ic).2.1 =
      ((List.range INT_COUNT).filter (fun i =>
          decide ((irq_latch_state ic).pending_irqs &&& (1 <<< i) ≠ 0 ∧
            ((irq_latch_state ic).handlers i).isSome))).map
        (fun i => (i, (irq_latch_state ic).handler_contexts i)) ∧
    (irq_process_pending ic).2.2 = (irq_process_pending ic).2.1.length := by
  have hfold := irq_foldl_dispatch (irq_latch_state ic) (List.range INT_COUNT) [] 0
  refine ⟨rfl, ?_, ?_, ?_⟩
  · show reg_read (reg_write (irq_latch_state ic).regs REG_IRQ_STATUS 0) REG_IRQ_STATUS = 0
    rw [reg_read_reg_write _ _ _ _ (by decide) (by decide), if_pos rfl]
  · show ((List.range INT_COUNT).foldl (irq_dispatch_step (irq_latch_state ic)) ([], 0)).1 = _
    rw [hfold]
    simp
  · show ((List.range INT_COUNT).foldl (irq_dispatch_step (irq_latch_state ic)) ([], 0)).2
        = ((List.range INT_COUNT).foldl (irq_dispatch_step (irq_latch_state ic)) ([], 0)).1.length
    rw [hfold]
    simp

/-- C5 counterexample: right after irq_init (every source disabled), the
signal bridge for SIGUSR1 sets the pending bit of the motor-fault source
even though that source was never enabled, so a disabled source does
become pending through the bridge. -/
theorem irq_signal_sets_disabled_pending :
    Nat.testBit (irq_signal_handler (irq_init reg_init) SIGUSR1).pending_irqs
      INT_MOTOR_FAULT = true ∧
    Nat.testBit (irq_signal_handler (irq_init reg_init) SIGUSR1).enabled_irqs
      INT_MOTOR_FAULT = false := by decide

/-- C5 amended: for every synchronous interrupt-controller operation (the
host-signal bridge excluded), a source that becomes pending across the
operation was enabled in the pre-state, and irq_trigger on a disabled
source leaves the controller (pending mask and registers) entirely
unchanged. The bridge itself sets the mapped pending bit without
consulting the enabled mask, as the counterexample shows. -/
theorem irq_pending_only_if_enabled :
    (∀ (ic : interrupt_controller_t) (op : irq_op) (s : Nat),
      ic.pending_irqs &&& (1 <<< s) = 0 →
      (irq_step ic op).pending_irqs &&& (1 <<< s) ≠ 0 →
      ic.enabled_irqs &&& (1 <<< s) ≠ 0) ∧
    (∀ (ic : interrupt_controller_t) (s : Nat),
      ic.enabled_irqs &&& (1 <<< s) = 0 → irq_trigger ic s = ic) := by
  constructor
  · intro ic op s h0 h1
    cases op with
    | register_handler s2 fn ctx =>
        have hp : (irq_step ic (irq_op.register_handler s2 fn ctx)).pending_irqs
            = ic.pending_irqs := by
          simp only [irq_step, irq_register_handler]
          split <;> rfl
        rw [hp] at h1
        exact absurd h0 h1
    | unregister_handler s2 =>
        have hp : (irq_step ic (irq_op.unregister_handler s2)).pending_irqs
            = ic.pending_irqs := by
          simp only [irq_step, irq_unregister_handler]
          split <;> rfl
        rw [hp] at h1
        exact absurd h0 h1
    | enable s2 =>
        have hp : (irq_step ic (irq_op.enable s2)).pending_irqs = ic.pending_irqs := by
          simp only [irq_step, irq_enable]
          split <;> rfl
        rw [hp] at h1
        exact absurd h0 h1
    | disable s2 =>
        have hp : (irq_step ic (irq_op.disable s2)).pending_irqs = ic.pending_irqs := by
          simp only [irq_step, irq_disable]
          split <;> rfl
        rw [hp] at h1
        exact absurd h0 h1
    | enable_all =>
        have hp : (irq_step ic irq_op.enable_all).pending_irqs = ic.pending_irqs := rfl
        rw [hp] at h1
        exact absurd h0 h1
    | disable_all =>
        have hp : (irq_step ic irq_op.disable_all).pending_irqs = ic.pending_irqs := rfl
        rw [hp] at h1
        exact absurd h0 h1
    | trigger s2 =>
        show ic.enabled_irqs &&& (1 <<< s) ≠ 0
        simp only [irq_step, irq_trigger] at h1
        by_cases hb : s2 ≥ INT_COUNT
        · rw [if_pos hb] at h1
          exact absurd h0 h1
        · rw [if_neg hb] at h1
          by_cases he : ic.enabled_irqs &&& (1 <<< s2) ≠ 0
          · rw [if_pos he] at h1
            dsimp only at h1
            rcases land_ne_zero_of_lor _ _ _ h1 with hx | hx
            · exact absurd h0 hx
            · rw [← shift_land_shift s2 s hx]
              exact he
          · rw [if_neg he] at h1
            exact absurd h0 h1
    | clear s2 =>
        simp only [irq_step, irq_clear] at h1
        by_cases hb : s2 ≥ INT_COUNT
        · rw [if_pos hb] at h1
          exact absurd h0 h1
        · rw [if_neg hb] at h1
          dsimp only at h1
          exact absurd (land_land_zero _ _ _ h0) h1
    | process_pending =>
        have hp : (irq_step ic irq_op.process_pending).pending_irqs = 0 := rfl
        rw [hp] at h1
        exact absurd (Nat.zero_and _) h1
  · intro ic s he
    unfold irq_trigger
    by_cases hb : s ≥ INT_COUNT
    · rw [if_pos hb]
    · rw [if_neg hb, if_neg (not_ne_iff.mpr he)]

/-- C5 witness for the amended theorem: with only source 0 enabled, a
trigger of source 0 makes it newly pending, and the theorem yields that
it was enabled at that moment; and a trigger of the disabled source 1
leaves the controller unchanged. -/
theorem irq_pending_only_if_enabled_witness :
    ((irq_enable (irq_init reg_init) 0).1.pending_irqs &&& (1 <<< 0) = 0) ∧
    ((irq_step (irq_enable (irq_init reg_init) 0).1 (irq_op.trigger 0)).pending_irqs
      &&& (1 <<< 0) ≠ 0) ∧
    ((irq_enable (irq_init reg_init) 0).1.enabled_irqs &&& (1 <<< 0) ≠ 0) ∧
    irq_trigger (irq_enable (irq_init reg_init) 0).1 1
      = (irq_enable (irq_init reg_init) 0).1 :=
  ⟨by decide, by decide,
   irq_pending_only_if_enabled.1 (irq_enable (irq_init reg_init) 0).1
     (irq_op.trigger 0) 0 (by decide) (by decide),
   irq_pending_only_if_enabled.2 (irq_enable (irq_init reg_init) 0).1 1 (by decide)⟩

/-! Claim theorems: sensor array. -/

/-- Helper: while the ring has spare capacity (tail at 0 and head staying
at or below 15), every push succeeds with code 0, advances the head by
one, and never touches the registers. -/
theorem sensor_push_list_ok (vs : List Int) (sa : sensor_array_t)
    (htail : sa.buffer_tail = 0) (hhead : sa.buffer_head + vs.length ≤ 15) :
    (sensor_push_list sa vs).2 = List.replicate vs.length 0 ∧
    (sensor_push_list sa vs).1.buffer_head = sa.buffer_head + vs.length ∧
    (sensor_push_list sa vs).1.buffer_tail = 0 ∧
    (sensor_push_list sa vs).1.regs = sa.regs := by
  induction vs generalizing sa with
  | nil =>
    exact ⟨rfl, rfl, htail, rfl⟩
  | cons v vs ih =>
    have hlt : sa.buffer_head + 1 < 16 := by
      have := hhead
      simp only [List.length_cons] at this
      omega
    have hne : (sa.buffer_head + 1) % SENSOR_BUFFER_SIZE ≠ sa.buffer_tail := by
      show (sa.buffer_head + 1) % 16 ≠ sa.buffer_tail
      rw [Nat.mod_eq_of_lt hlt, htail]
      omega
    have hpush : sensor_buffer_push sa v
        = ({ sa with buffer := sa.buffer.set sa.buffer_head v,
                     buffer_head := (sa.buffer_head + 1) % SENSOR_BUFFER_SIZE }, 0) := by
      rw [sensor_buffer_push, if_neg hne]
    have hmod : (sa.buffer_head + 1) % SENSOR_BUFFER_SIZE = sa.buffer_head + 1 := by
      show (sa.buffer_head + 1) % 16 = sa.buffer_head + 1
      exact Nat.mod_eq_of_lt hlt
    have hlen2 : sa.buffer_head + 1 + vs.length ≤ 15 := by
      have := hhead
      simp only [List.length_cons] at this
      omega
    simp only [sensor_push_list, hpush]
    have hrec := ih ({ sa with buffer := sa.buffer.set sa.buffer_head v,
                               buffer_head := (sa.buffer_head + 1) % SENSOR_BUFFER_SIZE })
      htail (by simpa [hmod] using hlen2)
    refine ⟨?_, ?_, hrec.2.2.1, hrec.2.2.2⟩
    · rw [List.length_cons, List.replicate]
      exact congrArg (List.cons 0) hrec.1
    · rw [hrec.2.1]
      simp only [hmod, List.length_cons]
      omega

/-- C7: from the freshly initialised sensor array (empty ring of capacity
16), 15 consecutive pushes all return 0; the 16th push returns the
buffer-full code (-2), sets the OVERFLOW bit in SENSOR_STATUS (which was
clear before), and leaves the ring contents, head index, and tail index
unchanged. -/
theorem sensor_ring_overflow (rf : register_file_t) (vs : List Int) (v : Int)
    (hlen : vs.length = 15) :
    (sensor_push_list (sensor_array_init rf) vs).2 = List.replicate 15 0 ∧
    Nat.testBit (reg_read (sensor_push_list (sensor_array_init rf) vs).1.regs
      REG_SENSOR_STATUS) 1 = false ∧
    (sensor_buffer_push (sensor_push_list (sensor_array_init rf) vs).1 v).2 = -2 ∧
    Nat.testBit (reg_read (sensor_buffer_push
      (sensor_push_list (sensor_array_init rf) vs).1 v).1.regs REG_SENSOR_STATUS) 1 = true ∧
    (sensor_buffer_push (sensor_push_list (sensor_array_init rf) vs).1 v).1.buffer
      = (sensor_push_list (sensor_array_init rf) vs).1.buffer ∧
    (sensor_buffer_push (sensor_push_list (sensor_array_init rf) vs).1 v).1.buffer_head
      = (sensor_push_list (sensor_array_init rf) vs).1.buffer_head ∧
    (sensor_buffer_push (sensor_push_list (sensor_array_init rf) vs).1 v).1.buffer_tail
      = (sensor_push_list (sensor_array_init rf) vs).1.buffer_tail := by
  have h0 := sensor_push_list_ok vs (sensor_array_init rf) rfl
    (by rw [hlen]; exact Nat.le_refl 15)
  have hstat : reg_read (sensor_push_list (sensor_array_init rf) vs).1.regs
      REG_SENSOR_STATUS = 0 := by
    rw [h0.2.2.2]
    show reg_read (reg_write (reg_write (reg_write rf REG_SENSOR_CTRL 0)
      REG_SENSOR_DATA 0) REG_SENSOR_STATUS 0) REG_SENSOR_STATUS = 0
    rw [reg_read_reg_write _ _ _ _ (by decide) (by decide), if_pos rfl]
  have hh : (sensor_push_list (sensor_array_init rf) vs).1.buffer_head = 15 := by
    rw [h0.2.1, hlen]
    rfl
  have hcond : ((sensor_push_list (sensor_array_init rf) vs).1.buffer_head + 1)
      % SENSOR_BUFFER_SIZE = (sensor_push_list (sensor_array_init rf) vs).1.buffer_tail := by
    rw [hh, h0.2.2.1]
    rfl
  have hpush : sensor_buffer_push (sensor_push_list (sensor_array_init rf) vs).1 v
      = ({ (sensor_push_list (sensor_array_init rf) vs).1 with
            regs := reg_set_bits (sensor_push_list (sensor_array_init rf) vs).1.regs
              REG_SENSOR_STATUS SENSOR_STATUS_OVERFLOW }, -2) := by
    rw [sensor_buffer_push, if_pos hcond]
  refine ⟨?_, ?_, ?_, ?_, ?_, ?_, ?_⟩
  · rw [h0.1, hlen]
  · rw [hstat]
    decide
  · rw [hpush]
  · rw [hpush]
    dsimp only
    rw [reg_read_reg_set_bits _ _ _ _ (by decide) (by decide), if_pos rfl, hstat]
    decide
  · rw [hpush]
  · rw [hpush]
  · rw [hpush]

/-- C7 witness: fifteen concrete pushes of value 3 followed by a push of
value 9. -/
theorem sensor_ring_overflow_witness :
    (sensor_push_list (sensor_array_init reg_init) (List.replicate 15 3)).2
      = List.replicate 15 0 ∧
    (sensor_buffer_push
      (sensor_push_list (sensor_array_init reg_init) (List.replicate 15 3)).1 9).2 = -2 ∧
    Nat.testBit (reg_read (sensor_buffer_push
      (sensor_push_list (sensor_array_init reg_init) (List.replicate 15 3)).1 9).1.regs
      REG_SENSOR_STATUS) 1 = true := by
  have h := sensor_ring_overflow reg_init (List.replicate 15 3) 9 (by decide)
  exact ⟨h.1, h.2.2.1, h.2.2.2.1⟩

/-- C8: clamping to a channel's [min, max] range happens only in
sensor_array_update, never in sensor_set_simulated_value: setting any
in-range channel returns the raw value on sensor_read, and in the
concrete scenario — enable, set_simulated_value(2, 9999), trigger,
update — channel 2 reads 9999 before the trigger/update cycle and 125
(the temperature maximum) after it. -/
theorem sensor_clamp_only_in_update :
    (∀ (sa : sensor_array_t) (i : Nat) (v : Int), i < 4 →
      sensor_read (sensor_set_simulated_value sa i v) i = v) ∧
    sensor_read sensor_clamp_demo_set 2 = 9999 ∧
    sensor_read sensor_clamp_demo_updated 2 = 125 := by
  refine ⟨?_, by decide, by decide⟩
  intro sa i v hi
  have hni : ¬ i ≥ SENSOR_COUNT := by
    show ¬ i ≥ 4
    omega
  rw [sensor_set_simulated_value, if_neg hni, sensor_read, if_neg hni]
  simp

/-- C8 witness: the universal no-clamp-on-set part at channel 2 with
value 9999 on the fresh sensor array. -/
theorem sensor_clamp_only_in_update_witness :
    (2 < 4) ∧
    sensor_read (sensor_set_simulated_value (sensor_array_init reg_init) 2 9999) 2 = 9999 :=
  ⟨by decide,
   sensor_clamp_only_in_update.1 (sensor_array_init reg_init) 2 9999 (by decide)⟩
